import Mathlib

/-!
Shallow embedding of `src/searchpolicy.py`: a paginated IAM-policy search
(`fetch_all_iam_policies`) whose single-page fetch
(`call_search_all_iam_policies`) is wrapped in a tenacity retry decorator

  @retry(stop=stop_after_attempt(5),
         wait=wait_exponential_jitter(),
         retry=retry_if_exception_type(HttpError))

The embedding models the decorated function's observable behaviour
(outcome, number of attempts, sleeps performed) and the pagination loop
(cursor passed to each call, aggregate returned or error propagated).
-/

set_option autoImplicit false

namespace SearchPolicy

/-- Classified Python exception raised by a fetch attempt.  `httpError`
models `googleapiclient.errors.HttpError` with its HTTP status
(`e.resp.status`); `otherError` models any exception that is not an
`HttpError` (transport or programming error).  The `eid` field is an
identity tag so that theorems can speak about "the original error object". -/
inductive PyError where
  | httpError (status : Nat) (eid : Nat)
  | otherError (eid : Nat)
deriving DecidableEq, Repr

/-- Embeds tenacity's `retry_if_exception_type(HttpError)` predicate
(line 15 of the source): retry exactly when the raised exception is an
`HttpError`, whatever its status. -/
def isHttpError : PyError → Bool
  | .httpError _ _ => true
  | .otherError _ => false

/-- A page response dictionary.  `policies` models `response.get('policies', ...)`
(`none` when the key is absent) and `nextPageToken` models
`response.get('nextPageToken')`. -/
structure Response (α : Type) where
  policies : Option (List α)
  nextPageToken : Option String
deriving DecidableEq, Repr

/-- Items contributed by a page: `response.get('policies', [])`
(source lines 38 and 68) — the empty list when the key is absent. -/
def pageItems {α : Type} (r : Response α) : List α :=
  r.policies.getD []

/-- Python truthiness of the pagination token as tested by
`if not next_page_token: break` (source line 72): a token is truthy
exactly when it is present and non-empty. -/
def tokenTruthy : Option String → Bool
  | none => false
  | some s => !s.isEmpty

/-- Tenacity's default maximum wait `_utils.MAX_WAIT = sys.maxsize / 2`.
On 64-bit CPython this is the float `(2^63 - 1) / 2`, which rounds to
exactly `2^62`. -/
def MAX_WAIT : ℚ := 2 ^ 62

/-- Tenacity's `wait_exponential_jitter()` with its default parameters
`initial = 1`, `exp_base = 2`, `jitter = 1`, `max = MAX_WAIT`: the wait
computed after attempt number `n` fails is
`max(0, min(initial * exp_base ** (n - 1) + uniform(0, jitter), max))`,
where `u` is the fresh uniform draw for this attempt. -/
def wait_exponential_jitter (n : Nat) (u : ℚ) : ℚ :=
  max 0 (min ((2 : ℚ) ^ (n - 1) + u) MAX_WAIT)

/-- Terminal outcome of a retry-wrapped call.  `raised e` means the
original exception `e` propagated unwrapped (tenacity re-raises via
`fut.result()` when the retry predicate rejects it); `retryError e`
means tenacity raised its `RetryError` wrapper around the final
attempt's exception `e` (the default `reraise=False` behaviour of
`stop_after_attempt`). -/
inductive RetryOutcome (α : Type) where
  | ok (a : α)
  | raised (e : PyError)
  | retryError (e : PyError)
deriving DecidableEq, Repr

/-- Observable result of one retry-wrapped call: terminal outcome, the
number of attempts made (1-indexed count), and the list of sleeps
performed, in order (the sleep at position `k` gated attempt `k + 2`). -/
structure RetryResult (α : Type) where
  outcome : RetryOutcome α
  attempts : Nat
  sleeps : List ℚ
deriving DecidableEq, Repr

/-- One step of tenacity's retry loop, from attempt number `n` with
`remaining` further attempts allowed by `stop_after_attempt` (the
invariant at the entry point is `remaining = 5 - n`, so `remaining = 0`
exactly when `attempt_number >= 5`, tenacity's stop condition).  Per
tenacity's `BaseRetrying.iter`, after a failed attempt the retry
predicate is consulted first (a rejected exception re-raises the
original), then the stop condition (raising `RetryError`), and only then
is the wait computed and slept before the next attempt.  `op n` is the
body of `call_search_all_iam_policies` at attempt `n` (its internal
`try/except HttpError` re-raises every caught error unchanged, so the
body is observationally the bare `request.execute()`). -/
def retryGo {α : Type} (op : Nat → Except PyError α) (retryPred : PyError → Bool)
    (wait : Nat → ℚ) (remaining n : Nat) (sleeps : List ℚ) : RetryResult α :=
  match op n with
  | .ok a => ⟨.ok a, n, sleeps.reverse⟩
  | .error e =>
    if retryPred e then
      match remaining with
      | 0 => ⟨.retryError e, n, sleeps.reverse⟩
      | r + 1 => retryGo op retryPred wait r (n + 1) (wait n :: sleeps)
    else ⟨.raised e, n, sleeps.reverse⟩

/-- The bound of `stop_after_attempt(5)` (source line 13). -/
def stop_after_attempt : Nat := 5

/-- The retry-decorated `call_search_all_iam_policies` (source lines
12-47), applied to a fetch operation `op` (attempt number ↦ outcome of
`request.execute()`) and a jitter stream `u` (attempt number ↦ the
uniform draw of `random.uniform(0, 1)` made when computing the wait
after that attempt).  Starts at attempt 1 with `stop_after_attempt - 1`
retries remaining and no sleeps performed. -/
def call_search_all_iam_policies {α : Type} (op : Nat → Except PyError (Response α))
    (u : Nat → ℚ) : RetryResult (Response α) :=
  retryGo op isHttpError (fun n => wait_exponential_jitter n (u n))
    (stop_after_attempt - 1) 1 []

/-- Observable trace of one `fetch_all_iam_policies` run: the cursor
(`page_token`) passed to each fetch call, in order (`none` models
Python's `page_token=None`), and the outcome — the aggregated policy
list on success, or the propagated exception. -/
structure PaginationTrace (α : Type) where
  calls : List (Option String)
  result : Except PyError (List α)

/-- The pagination loop of `fetch_all_iam_policies` (source lines
63-73), run against a script: the `k`-th element of `script` is the
outcome of the `k`-th fetch call.  `cursor` is the current
`next_page_token`, `acc` the accumulated `all_policies`, `calls` the
cursors passed so far.  Returns `none` only if the script is exhausted
while the loop still needs another page (no claim exercises that). -/
def fetchAllAux {α : Type} (script : List (Except PyError (Response α)))
    (cursor : Option String) (acc : List α) (calls : List (Option String)) :
    Option (PaginationTrace α) :=
  match script with
  | [] => none
  | r :: rest =>
    match r with
    | .error e => some ⟨calls ++ [cursor], .error e⟩
    | .ok resp =>
      if tokenTruthy resp.nextPageToken then
        fetchAllAux rest resp.nextPageToken (acc ++ pageItems resp) (calls ++ [cursor])
      else
        some ⟨calls ++ [cursor], .ok (acc ++ pageItems resp)⟩

/-- `fetch_all_iam_policies` (source lines 49-75): starts with
`next_page_token = None` and `all_policies = []`. -/
def fetch_all_iam_policies {α : Type} (script : List (Except PyError (Response α))) :
    Option (PaginationTrace α) :=
  fetchAllAux script none [] []

end SearchPolicy

namespace SearchPolicy

/-! Step lemmas for the retry loop, one per branch of `retryGo`. -/

theorem retryGo_ok {α : Type} (op : Nat → Except PyError α) (p : PyError → Bool)
    (w : Nat → ℚ) (r n : Nat) (s : List ℚ) (a : α) (h : op n = Except.ok a) :
    retryGo op p w r n s = ⟨.ok a, n, s.reverse⟩ := by
  rw [retryGo.eq_def, h]

theorem retryGo_raised {α : Type} (op : Nat → Except PyError α) (p : PyError → Bool)
    (w : Nat → ℚ) (r n : Nat) (s : List ℚ) (e : PyError) (h : op n = Except.error e)
    (hp : p e = false) :
    retryGo op p w r n s = ⟨.raised e, n, s.reverse⟩ := by
  rw [retryGo.eq_def, h]
  simp [hp]

theorem retryGo_stop {α : Type} (op : Nat → Except PyError α) (p : PyError → Bool)
    (w : Nat → ℚ) (n : Nat) (s : List ℚ) (e : PyError) (h : op n = Except.error e)
    (hp : p e = true) :
    retryGo op p w 0 n s = ⟨.retryError e, n, s.reverse⟩ := by
  rw [retryGo.eq_def, h]
  simp [hp]

theorem retryGo_retry {α : Type} (op : Nat → Except PyError α) (p : PyError → Bool)
    (w : Nat → ℚ) (r n : Nat) (s : List ℚ) (e : PyError) (h : op n = Except.error e)
    (hp : p e = true) :
    retryGo op p w (r + 1) n s = retryGo op p w r (n + 1) (w n :: s) := by
  rw [retryGo.eq_def, h]
  simp [hp]

/-- Helper: a fetch operation that raises the same `HttpError` on every
attempt (any status, with jitter draws all 0) is attempted 5 times,
sleeps 1, 2, 4 and 8 seconds between attempts, and ends in tenacity's
`RetryError` wrapper. -/
theorem retry_const_httpError (st eid : Nat) :
    call_search_all_iam_policies (α := ℕ)
        (fun _ => Except.error (PyError.httpError st eid)) (fun _ => 0) =
      ⟨RetryOutcome.retryError (PyError.httpError st eid), 5, [1, 2, 4, 8]⟩ := by
  unfold call_search_all_iam_policies stop_after_attempt
  rw [show (5 - 1 : Nat) = 3 + 1 from rfl]
  rw [retryGo_retry _ _ _ _ _ _ _ rfl rfl]
  rw [show (3 : Nat) = 2 + 1 from rfl, retryGo_retry _ _ _ _ _ _ _ rfl rfl]
  rw [show (2 : Nat) = 1 + 1 from rfl, retryGo_retry _ _ _ _ _ _ _ rfl rfl]
  rw [show (1 : Nat) = 0 + 1 from rfl, retryGo_retry _ _ _ _ _ _ _ rfl rfl]
  rw [retryGo_stop _ _ _ _ _ _ rfl rfl]
  simp [wait_exponential_jitter, MAX_WAIT, min_def, max_def]
  norm_num

end SearchPolicy

namespace SearchPolicy

/-- Claim C1 (code_bug evidence).  The spec says a Permanent error (any
classified error other than a 429 rate limit, e.g. a 403 auth failure)
fails immediately: exactly 1 attempt, no backoff.  Evaluating the code
on a fetch operation that raises `HttpError` with status 403 on every
attempt (jitter draws 0): tenacity's `retry_if_exception_type(HttpError)`
matches it, so the call makes 5 attempts, sleeps 1, 2, 4 and 8 seconds,
and ends in a `RetryError` — contradicting the claim and the source's
own comments, which say only rate-limit errors are retried. -/
theorem permanent_httpError_retried_five_attempts :
    call_search_all_iam_policies (α := ℕ)
        (fun _ => Except.error (PyError.httpError 403 0)) (fun _ => 0) =
      ⟨RetryOutcome.retryError (PyError.httpError 403 0), 5, [1, 2, 4, 8]⟩ :=
  retry_const_httpError 403 0

/-- Claim C2 (counterexample).  A fetch operation raising the same 429
`HttpError` on all attempts does terminate after exactly 5 attempts, but
the surfaced outcome is tenacity's `RetryError` wrapper around the last
error, not the original error propagated unwrapped, refuting the
claim's "reraise" part. -/
theorem retry_exhausted_wrapper_cex :
    (call_search_all_iam_policies (α := ℕ)
        (fun _ => Except.error (PyError.httpError 429 7)) (fun _ => 0)).attempts = 5 ∧
    (call_search_all_iam_policies (α := ℕ)
        (fun _ => Except.error (PyError.httpError 429 7)) (fun _ => 0)).outcome =
      RetryOutcome.retryError (PyError.httpError 429 7) ∧
    (call_search_all_iam_policies (α := ℕ)
        (fun _ => Except.error (PyError.httpError 429 7)) (fun _ => 0)).outcome ≠
      RetryOutcome.raised (PyError.httpError 429 7) := by
  rw [retry_const_httpError 429 7]
  refine ⟨rfl, rfl, fun hcon => ?_⟩
  exact RetryOutcome.noConfusion hcon

/-- Claim C2 (amended).  For every fetch operation that fails with an
`HttpError` on all attempts, the retry-wrapped call terminates after
exactly 5 attempts, having slept the four computed backoff delays, and
the outcome is tenacity's `RetryError` wrapping the 5th attempt's error
(`reraise=False`, tenacity's default, is in force since the decorator
passes no `reraise` argument). -/
theorem retry_exhausted_five_attempts (op : Nat → Except PyError (Response ℕ))
    (u : Nat → ℚ) (e : Nat → PyError)
    (hfail : ∀ n, 1 ≤ n → n ≤ 5 → op n = Except.error (e n))
    (hhttp : ∀ n, 1 ≤ n → n ≤ 5 → isHttpError (e n) = true) :
    call_search_all_iam_policies op u =
      ⟨RetryOutcome.retryError (e 5), 5,
       [wait_exponential_jitter 1 (u 1), wait_exponential_jitter 2 (u 2),
        wait_exponential_jitter 3 (u 3), wait_exponential_jitter 4 (u 4)]⟩ := by
  unfold call_search_all_iam_policies stop_after_attempt
  rw [show (5 - 1 : Nat) = 3 + 1 from rfl,
      retryGo_retry _ _ _ _ _ _ _ (hfail 1 (by norm_num) (by norm_num))
        (hhttp 1 (by norm_num) (by norm_num)),
      show (3 : Nat) = 2 + 1 from rfl,
      retryGo_retry _ _ _ _ _ _ _ (hfail 2 (by norm_num) (by norm_num))
        (hhttp 2 (by norm_num) (by norm_num)),
      show (2 : Nat) = 1 + 1 from rfl,
      retryGo_retry _ _ _ _ _ _ _ (hfail 3 (by norm_num) (by norm_num))
        (hhttp 3 (by norm_num) (by norm_num)),
      show (1 : Nat) = 0 + 1 from rfl,
      retryGo_retry _ _ _ _ _ _ _ (hfail 4 (by norm_num) (by norm_num))
        (hhttp 4 (by norm_num) (by norm_num)),
      retryGo_stop _ _ _ _ _ _ (hfail 5 (by norm_num) (by norm_num))
        (hhttp 5 (by norm_num) (by norm_num))]
  simp

/-- Witness for `retry_exhausted_five_attempts` at a concrete operation
raising a 429 `HttpError` on every attempt with jitter draws 0. -/
theorem retry_exhausted_five_attempts_witness :
    call_search_all_iam_policies (α := ℕ)
        (fun _ => Except.error (PyError.httpError 429 1)) (fun _ => 0) =
      ⟨RetryOutcome.retryError (PyError.httpError 429 1), 5,
       [wait_exponential_jitter 1 0, wait_exponential_jitter 2 0,
        wait_exponential_jitter 3 0, wait_exponential_jitter 4 0]⟩ :=
  retry_exhausted_five_attempts _ _ (fun _ => PyError.httpError 429 1)
    (fun _ _ _ => rfl) (fun _ _ _ => rfl)

/-- Claim C3 (counterexample).  With a fetch operation raising a 429 on
every attempt and all jitter draws equal to 0, the delays actually
slept are 1, 2, 4 and 8 seconds, but the claim's formula
`min(2^n + U(0,1), 60)` predicts 2 seconds for the first delay
(retry attempt n = 1, U = 0): the code waits `2^(n-1) + U`, not
`2^n + U`. -/
theorem backoff_delays_cex :
    (call_search_all_iam_policies (α := ℕ)
        (fun _ => Except.error (PyError.httpError 429 3)) (fun _ => 0)).sleeps =
      [1, 2, 4, 8] ∧
    (1 : ℚ) ≠ min ((2 : ℚ) ^ 1 + 0) 60 := by
  constructor
  · rw [retry_const_httpError 429 3]
  · norm_num [min_def]

/-- Claim C3 (amended).  For every retry attempt `n` in the range the
5-attempt budget allows (1 ≤ n ≤ 4) and every jitter draw `u` in
[0, 1], the delay waited after attempt `n` (before attempt `n + 1`)
equals `2^(n-1) + u` — so `2^(n-1) ≤ delay ≤ 2^(n-1) + 1` — and for all
`n` and `u` the delay never exceeds tenacity's default cap
`MAX_WAIT = 2^62` seconds (`sys.maxsize / 2`); there is no 60-second
cap. -/
theorem backoff_formula_amended (n : Nat) (u : ℚ) (h1 : 1 ≤ n) (h4 : n ≤ 4)
    (hu0 : 0 ≤ u) (hu1 : u ≤ 1) :
    wait_exponential_jitter n u = 2 ^ (n - 1) + u ∧
    (2 : ℚ) ^ (n - 1) ≤ wait_exponential_jitter n u ∧
    wait_exponential_jitter n u ≤ 2 ^ (n - 1) + 1 ∧
    ∀ (m : Nat) (v : ℚ), wait_exponential_jitter m v ≤ MAX_WAIT := by
  have hcap : ∀ (m : Nat) (v : ℚ), wait_exponential_jitter m v ≤ MAX_WAIT := by
    intro m v
    exact max_le (by norm_num [MAX_WAIT]) (min_le_right _ _)
  have hpow : (2 : ℚ) ^ (n - 1) ≤ 2 ^ 3 := by
    apply pow_le_pow_right₀ (by norm_num)
    omega
  have hsmall : (2 : ℚ) ^ (n - 1) + u ≤ MAX_WAIT := by
    calc (2 : ℚ) ^ (n - 1) + u ≤ 2 ^ 3 + 1 := by
          exact add_le_add hpow hu1
      _ ≤ MAX_WAIT := by norm_num [MAX_WAIT]
  have hpos : (0 : ℚ) ≤ 2 ^ (n - 1) + u := by positivity
  have heq : wait_exponential_jitter n u = 2 ^ (n - 1) + u := by
    unfold wait_exponential_jitter
    rw [min_eq_left hsmall, max_eq_right hpos]
  refine ⟨heq, ?_, ?_, hcap⟩
  · rw [heq]; linarith
  · rw [heq]; linarith

/-- Witness for `backoff_formula_amended` at retry attempt 2 with
jitter draw 1/2. -/
theorem backoff_formula_amended_witness :
    wait_exponential_jitter 2 (1 / 2) = 2 ^ (2 - 1) + 1 / 2 ∧
    (2 : ℚ) ^ (2 - 1) ≤ wait_exponential_jitter 2 (1 / 2) ∧
    wait_exponential_jitter 2 (1 / 2) ≤ 2 ^ (2 - 1) + 1 ∧
    ∀ (m : Nat) (v : ℚ), wait_exponential_jitter m v ≤ MAX_WAIT :=
  backoff_formula_amended 2 (1 / 2) (by norm_num) (by norm_num)
    (by norm_num) (by norm_num)

/-- Claim C7.  A fetch operation raising 429 `HttpError`s on attempts
1-4 and succeeding on attempt 5 yields the success result after exactly
5 attempts, with exactly four sleeps — the delays computed after
attempts 1 through 4, each gating the following attempt — and no sleep
before the first attempt. -/
theorem retry_transient_then_success (op : Nat → Except PyError (Response ℕ))
    (u : Nat → ℚ) (resp : Response ℕ) (eids : Nat → Nat)
    (hfail : ∀ n, 1 ≤ n → n ≤ 4 → op n = Except.error (PyError.httpError 429 (eids n)))
    (hsucc : op 5 = Except.ok resp) :
    call_search_all_iam_policies op u =
      ⟨RetryOutcome.ok resp, 5,
       [wait_exponential_jitter 1 (u 1), wait_exponential_jitter 2 (u 2),
        wait_exponential_jitter 3 (u 3), wait_exponential_jitter 4 (u 4)]⟩ := by
  unfold call_search_all_iam_policies stop_after_attempt
  rw [show (5 - 1 : Nat) = 3 + 1 from rfl,
      retryGo_retry _ _ _ _ _ _ _ (hfail 1 (by norm_num) (by norm_num)) rfl,
      show (3 : Nat) = 2 + 1 from rfl,
      retryGo_retry _ _ _ _ _ _ _ (hfail 2 (by norm_num) (by norm_num)) rfl,
      show (2 : Nat) = 1 + 1 from rfl,
      retryGo_retry _ _ _ _ _ _ _ (hfail 3 (by norm_num) (by norm_num)) rfl,
      show (1 : Nat) = 0 + 1 from rfl,
      retryGo_retry _ _ _ _ _ _ _ (hfail 4 (by norm_num) (by norm_num)) rfl,
      retryGo_ok _ _ _ _ _ _ _ hsucc]
  simp

/-- Witness for `retry_transient_then_success`: 429s on attempts 1-4,
success with a one-item page on attempt 5, jitter draws 0. -/
theorem retry_transient_then_success_witness :
    call_search_all_iam_policies (α := ℕ)
        (fun n => if n ≤ 4 then Except.error (PyError.httpError 429 n)
                  else Except.ok ⟨some [5], none⟩) (fun _ => 0) =
      ⟨RetryOutcome.ok ⟨some [5], none⟩, 5,
       [wait_exponential_jitter 1 0, wait_exponential_jitter 2 0,
        wait_exponential_jitter 3 0, wait_exponential_jitter 4 0]⟩ :=
  retry_transient_then_success _ _ _ (fun n => n)
    (fun n _ h4 => by simp [h4]) (by norm_num)

/-- Claim C9.  A fetch operation whose first attempt raises an exception
that is not an `HttpError` propagates it to the caller unwrapped after
exactly 1 attempt, with no retry and no sleep: tenacity's
`retry_if_exception_type(HttpError)` rejects it and re-raises the
original exception. -/
theorem non_httpError_one_attempt (op : Nat → Except PyError (Response ℕ))
    (u : Nat → ℚ) (e : PyError) (h : op 1 = Except.error e)
    (he : isHttpError e = false) :
    call_search_all_iam_policies op u = ⟨RetryOutcome.raised e, 1, []⟩ := by
  unfold call_search_all_iam_policies stop_after_attempt
  rw [retryGo_raised _ _ _ _ _ _ _ h he]
  rfl

/-- Witness for `non_httpError_one_attempt` at a concrete non-HttpError
exception. -/
theorem non_httpError_one_attempt_witness :
    call_search_all_iam_policies (α := ℕ)
        (fun _ => Except.error (PyError.otherError 3)) (fun _ => 0) =
      ⟨RetryOutcome.raised (PyError.otherError 3), 1, []⟩ :=
  non_httpError_one_attempt _ _ _ rfl rfl

end SearchPolicy

namespace SearchPolicy

/-! Pagination lemmas. -/

/-- Helper: running the loop over a script of successful pages whose
front pages all carry a truthy token and whose last page's token is
falsy appends one call per page (cursor chaining through each
`nextPageToken`) and the concatenation of all pages' items. -/
theorem fetchAllAux_ok_pages {α : Type} (front : List (Response α)) (lastp : Response α)
    (hmid : ∀ p ∈ front, tokenTruthy p.nextPageToken = true)
    (hlast : tokenTruthy lastp.nextPageToken = false) :
    ∀ (cursor : Option String) (acc : List α) (calls : List (Option String)),
    fetchAllAux ((front ++ [lastp]).map Except.ok) cursor acc calls =
      some ⟨calls ++ cursor :: front.map (fun p => p.nextPageToken),
            Except.ok (acc ++ ((front ++ [lastp]).map pageItems).flatten)⟩ := by
  induction front with
  | nil =>
    intro cursor acc calls
    simp [fetchAllAux, hlast]
  | cons p rest ih =>
    intro cursor acc calls
    have hp : tokenTruthy p.nextPageToken = true := hmid p (by simp)
    have ih' := ih (fun q hq => hmid q (by simp [hq]))
    simp only [List.cons_append, List.map_cons, fetchAllAux, hp, if_true,
      List.append_eq]
    rw [ih']
    simp

/-- Helper: running the loop over a script of truthy successful pages
followed by a failing fetch propagates the error, discarding the
accumulator, after one call per consumed script entry. -/
theorem fetchAllAux_error_prop {α : Type} (good : List (Response α)) (e : PyError)
    (rest : List (Except PyError (Response α)))
    (hall : ∀ p ∈ good, tokenTruthy p.nextPageToken = true) :
    ∀ (cursor : Option String) (acc : List α) (calls : List (Option String)),
    fetchAllAux (good.map Except.ok ++ Except.error e :: rest) cursor acc calls =
      some ⟨calls ++ cursor :: good.map (fun p => p.nextPageToken),
            Except.error e⟩ := by
  induction good with
  | nil =>
    intro cursor acc calls
    simp [fetchAllAux]
  | cons p ps ih =>
    intro cursor acc calls
    have hp : tokenTruthy p.nextPageToken = true := hall p (by simp)
    have ih' := ih (fun q hq => hall q (by simp [hq]))
    simp only [List.cons_append, List.map_cons, fetchAllAux, hp, if_true,
      List.append_eq]
    rw [ih']
    simp

/-- Claim C4.  For every N-page run (front pages carrying a non-empty
`nextPageToken`, last page's token absent), `fetch_all_iam_policies`
makes exactly one fetch call per page — the first with cursor `None`,
each later one with the previous response's token — and returns the
ordered concatenation of all pages' items, with no deduplication. -/
theorem fetch_all_pagination_trace (front : List (Response ℕ)) (lastp : Response ℕ)
    (hmid : ∀ p ∈ front, tokenTruthy p.nextPageToken = true)
    (hlast : lastp.nextPageToken = none) :
    fetch_all_iam_policies ((front ++ [lastp]).map Except.ok) =
      some ⟨none :: front.map (fun p => p.nextPageToken),
            Except.ok (((front ++ [lastp]).map pageItems).flatten)⟩ ∧
    (none :: front.map (fun p : Response ℕ => p.nextPageToken)).length =
      (front ++ [lastp]).length := by
  constructor
  · have h := fetchAllAux_ok_pages front lastp hmid
      (by simp [tokenTruthy, hlast]) none [] []
    simpa [fetch_all_iam_policies] using h
  · simp

/-- Witness for `fetch_all_pagination_trace`: the spec's own scenario —
page 1 has items [10, 11] and cursor "X", page 2 has item [12] and no
cursor; the aggregate is [10, 11, 12] over two calls, the second
passing cursor "X". -/
theorem fetch_all_pagination_trace_witness :
    fetch_all_iam_policies (α := ℕ)
        [Except.ok ⟨some [10, 11], some ("X")⟩, Except.ok ⟨some [12], none⟩] =
      some ⟨[none, some ("X")], Except.ok [10, 11, 12]⟩ ∧
    ([none, some ("X")] : List (Option String)).length = 2 := by
  have h := fetch_all_pagination_trace [⟨some [10, 11], some ("X")⟩]
    ⟨some [12], none⟩ (by intro p hp; simp at hp; subst hp; decide) rfl
  constructor
  · have h1 := h.1
    simpa [pageItems] using h1
  · rfl

/-- Claim C5.  When the very first response carries no `nextPageToken`,
`fetch_all_iam_policies` makes exactly one fetch call (with cursor
`None`) and returns exactly that page's items, whatever later fetches
would have returned. -/
theorem fetch_all_single_page (p : Response ℕ)
    (rest : List (Except PyError (Response ℕ)))
    (h : p.nextPageToken = none) :
    fetch_all_iam_policies (Except.ok p :: rest) =
      some ⟨[none], Except.ok (pageItems p)⟩ := by
  simp [fetch_all_iam_policies, fetchAllAux, tokenTruthy, h]

/-- Witness for `fetch_all_single_page` on a concrete one-page script
with a would-be second page that is never fetched. -/
theorem fetch_all_single_page_witness :
    fetch_all_iam_policies (α := ℕ)
        [Except.ok ⟨some [1, 2], none⟩, Except.ok ⟨some [9], none⟩] =
      some ⟨[none], Except.ok (pageItems (⟨some [1, 2], none⟩ : Response ℕ))⟩ :=
  fetch_all_single_page ⟨some [1, 2], none⟩ [Except.ok ⟨some [9], none⟩] rfl

/-- Claim C6.  Whatever the loop state (cursor, accumulator, calls so
far) and whatever the rest of the script holds, a response whose
`nextPageToken` is absent or the empty string is treated as the final
page: the loop appends that page's items, terminates, and issues no
further fetch call. -/
theorem final_token_stops_pagination {α : Type} (p : Response α)
    (rest : List (Except PyError (Response α))) (cursor : Option String)
    (acc : List α) (calls : List (Option String))
    (h : p.nextPageToken = none ∨ p.nextPageToken = some ("")) :
    fetchAllAux (Except.ok p :: rest) cursor acc calls =
      some ⟨calls ++ [cursor], Except.ok (acc ++ pageItems p)⟩ := by
  have hfalse : tokenTruthy p.nextPageToken = false := by
    rcases h with h | h <;> rw [h] <;> decide
  simp [fetchAllAux, hfalse]

/-- Witness for `final_token_stops_pagination`: an empty-string token
mid-pagination stops the loop with the page's items appended, ignoring
a pending error in the rest of the script. -/
theorem final_token_stops_pagination_witness :
    fetchAllAux (α := ℕ)
        [Except.ok ⟨some [7], some ("")⟩, Except.error (PyError.httpError 500 0)]
        (some ("T")) [1, 2] [none] =
      some ⟨[none, some ("T")], Except.ok ([1, 2] ++ pageItems (⟨some [7], some ("")⟩ : Response ℕ))⟩ :=
  final_token_stops_pagination ⟨some [7], some ("")⟩
    [Except.error (PyError.httpError 500 0)] (some ("T")) [1, 2] [none]
    (Or.inr rfl)

/-- Claim C8.  When a fetch step fails terminally after any number of
successfully consumed pages, `fetch_all_iam_policies` propagates that
error to its caller: the result is the error itself and the partial
aggregate accumulated from the earlier pages is discarded, never
returned. -/
theorem fetch_error_aborts_pagination (good : List (Response ℕ)) (e : PyError)
    (rest : List (Except PyError (Response ℕ)))
    (hall : ∀ p ∈ good, tokenTruthy p.nextPageToken = true) :
    fetch_all_iam_policies (good.map Except.ok ++ Except.error e :: rest) =
      some ⟨none :: good.map (fun p => p.nextPageToken), Except.error e⟩ := by
  have h := fetchAllAux_error_prop good e rest hall none [] []
  simpa [fetch_all_iam_policies] using h

/-- Witness for `fetch_error_aborts_pagination`: one successful page
with items [10, 11] followed by a permanent 403 failure; the run
surfaces the error and the partial aggregate [10, 11] is dropped. -/
theorem fetch_error_aborts_pagination_witness :
    fetch_all_iam_policies (α := ℕ)
        [Except.ok ⟨some [10, 11], some ("X")⟩,
         Except.error (PyError.httpError 403 2)] =
      some ⟨[none, some ("X")], Except.error (PyError.httpError 403 2)⟩ := by
  have h := fetch_error_aborts_pagination [⟨some [10, 11], some ("X")⟩]
    (PyError.httpError 403 2) [] (by intro p hp; simp at hp; subst hp; decide)
  simpa using h

/-- Claim C10.  A successful response whose results field is absent
(`policies` key missing) is treated as an empty page, not a failure:
nothing is appended to the accumulator, and the loop terminates or
continues based solely on `nextPageToken`. -/
theorem absent_policies_empty_page {α : Type} (p : Response α)
    (rest : List (Except PyError (Response α))) (cursor : Option String)
    (acc : List α) (calls : List (Option String))
    (h : p.policies = none) :
    fetchAllAux (Except.ok p :: rest) cursor acc calls =
      if tokenTruthy p.nextPageToken then
        fetchAllAux rest p.nextPageToken acc (calls ++ [cursor])
      else some ⟨calls ++ [cursor], Except.ok acc⟩ := by
  simp [fetchAllAux, pageItems, h]

/-- Witness for `absent_policies_empty_page`: a policies-less page with
a truthy token continues pagination with an unchanged accumulator. -/
theorem absent_policies_empty_page_witness :
    fetchAllAux (α := ℕ)
        [Except.ok ⟨none, some ("N")⟩, Except.ok ⟨some [4], none⟩] none [] [] =
      some ⟨[none, some ("N")], Except.ok [4]⟩ := by
  have h := absent_policies_empty_page (⟨none, some ("N")⟩ : Response ℕ)
    [Except.ok ⟨some [4], none⟩] none [] [] rfl
  rw [h]
  simp [fetchAllAux, tokenTruthy, pageItems]
  decide

end SearchPolicy
